import Mathlib

/-!
Shallow embedding of the `u2_lesson_mongoose_express` repository: a small
Express + Mongoose API over two collections (`Product`, `Brand`), a seed
script, and a database connection module.

Sources embedded:
- `server.js` — the five GET route handlers;
- `models/product.js` and the brand schema — field validation
  (`required: true` on String rejects missing and empty values);
- the seed script `seed/brandsProducts.js` — five sequential brand saves,
  one `insertMany` batch of seven products, a completion log, `db.close()`;
- `db/index.js` — connect to a hardcoded local address, log the outcome,
  no retry, no crash.

Object ids are modelled as `Nat`, generated by a counter in the database
state. A raw `:id` path parameter is a `RawId`: the driver either casts it
to a valid id or raises a cast error (malformed identifier). Database
operations return `Except DbError`; a disconnected handle makes every
operation fail at call time, mirroring queries against an unavailable
connection.
-/

namespace MongooseExpress

/-- Errors raised by the database driver layer. -/
inductive DbError where
  | unavailable
  | castError
  | validationFailed
  deriving DecidableEq, Repr

/-- A stored `Brand` document: generated id plus the two schema fields. -/
structure BrandDoc where
  id : Nat
  name : String
  url : String
  deriving DecidableEq, Repr

/-- A stored `Product` document: generated id, the three required fields,
and the optional `brand` reference (`Schema.Types.ObjectId, ref: 'Brand'`). -/
structure ProductDoc where
  id : Nat
  title : String
  description : String
  price : String
  brand : Option Nat
  deriving DecidableEq, Repr

/-- Input to `Product.insertMany`: the fields of one product to insert. -/
structure ProductInput where
  title : String
  description : String
  price : String
  brand : Option Nat
  deriving DecidableEq, Repr

/-- The database state: the two collections, the id generator, and whether
the connection handle is usable. -/
structure DB where
  brands : List BrandDoc
  products : List ProductDoc
  nextId : Nat
  connected : Bool
  deriving DecidableEq, Repr

/-- A raw `:id` path parameter. The driver casts it to an object id;
a malformed string fails the cast. -/
inductive RawId where
  | valid (n : Nat)
  | malformed (s : String)
  deriving DecidableEq, Repr

/-- Driver cast of a raw path parameter to an object id. -/
def castId : RawId → Option Nat
  | .valid n => some n
  | .malformed _ => none

/-- Schema validation for a brand (`name` and `url` both `required: true`;
Mongoose's required validator on String rejects the empty string). -/
def brandValid (name url : String) : Bool :=
  name ≠ "" && url ≠ ""

/-- Schema validation for a product (`title`, `description`, `price` all
`required: true`; `brand` carries no validator at all). -/
def productValid (p : ProductInput) : Bool :=
  p.title ≠ "" && p.description ≠ "" && p.price ≠ ""

/-- Embeds `new Brand({...}).save()`: validate against the schema, then write.
Validation runs client-side before the write is attempted. -/
def Brand_save (db : DB) (name url : String) : Except DbError (BrandDoc × DB) :=
  if !brandValid name url then .error .validationFailed
  else if !db.connected then .error .unavailable
  else
    let doc : BrandDoc := ⟨db.nextId, name, url⟩
    .ok (doc, { db with brands := db.brands ++ [doc], nextId := db.nextId + 1 })

/-- Turn a batch of product inputs into documents, assigning generated
ids in sequence starting at `n`. -/
def mkProductDocs (n : Nat) : List ProductInput → List ProductDoc
  | [] => []
  | p :: ps => ⟨n, p.title, p.description, p.price, p.brand⟩ :: mkProductDocs (n + 1) ps

/-- Embeds `Product.insertMany(ps)`: validate every document against the schema,
then insert all of them in one batch. -/
def Product_insertMany (db : DB) (ps : List ProductInput) :
    Except DbError (List ProductDoc × DB) :=
  if !ps.all productValid then .error .validationFailed
  else if !db.connected then .error .unavailable
  else
    let docs := mkProductDocs db.nextId ps
    .ok (docs, { db with products := db.products ++ docs,
                         nextId := db.nextId + ps.length })

/-- Embeds `Product.find({})`: all stored products; fails if the handle is down. -/
def Product_find (db : DB) : Except DbError (List ProductDoc) :=
  if !db.connected then .error .unavailable
  else .ok db.products

/-- Embeds `Brand.find({})`: all stored brands; fails if the handle is down. -/
def Brand_find (db : DB) : Except DbError (List BrandDoc) :=
  if !db.connected then .error .unavailable
  else .ok db.brands

/-- Embeds `Product.findById(id)`: cast the raw parameter (raising on a malformed
id), then return the matching document, if any. -/
def Product_findById (db : DB) (rid : RawId) :
    Except DbError (Option ProductDoc) :=
  if !db.connected then .error .unavailable
  else match castId rid with
    | none => .error .castError
    | some n => .ok (db.products.find? fun p => p.id == n)

/-- Embeds `Brand.findById(id)`: as for products, over the brands collection. -/
def Brand_findById (db : DB) (rid : RawId) :
    Except DbError (Option BrandDoc) :=
  if !db.connected then .error .unavailable
  else match castId rid with
    | none => .error .castError
    | some n => .ok (db.brands.find? fun b => b.id == n)

/-- The body of an HTTP response: `res.send` text or `res.json` payloads. -/
inductive Body where
  | text (s : String)
  | jsonProduct (p : ProductDoc)
  | jsonBrand (b : BrandDoc)
  | jsonProductList (l : List ProductDoc)
  | jsonBrandList (l : List BrandDoc)
  deriving DecidableEq, Repr

/-- An HTTP response; `server.js` never sets a status, so every response
carries the default 200. -/
structure HttpResponse where
  status : Nat
  body : Body
  deriving DecidableEq, Repr

/-- What a `try` block in a by-id handler can throw: the generic
`Error('... not found')` thrown on a null lookup, or a driver error. -/
inductive HandlerError where
  | notFoundThrow
  | db (e : DbError)
  deriving DecidableEq, Repr

/-- Embeds `app.get('/')`: `res.send('This is root')`. -/
def rootHandler (db : DB) : Except DbError HttpResponse × DB :=
  (.ok ⟨200, .text "This is root"⟩, db)

/-- Embeds `app.get('/products')`: `Product.find({})` then `res.json(products)`;
no try/catch, so a driver error propagates out of the handler. -/
def productsIndexHandler (db : DB) : Except DbError HttpResponse × DB :=
  match Product_find db with
  | .ok ps => (.ok ⟨200, .jsonProductList ps⟩, db)
  | .error e => (.error e, db)

/-- Embeds `app.get('/brands')`: `Brand.find({})` then `res.json(brands)`;
no try/catch, so a driver error propagates out of the handler. -/
def brandsIndexHandler (db : DB) : Except DbError HttpResponse × DB :=
  match Brand_find db with
  | .ok bs => (.ok ⟨200, .jsonBrandList bs⟩, db)
  | .error e => (.error e, db)

/-- The `try` block of `app.get('/products/:id')`: `findById`, throw on a
null result, otherwise `res.json(product)`. -/
def productShowTry (db : DB) (rid : RawId) : Except HandlerError HttpResponse :=
  match Product_findById db rid with
  | .error e => .error (.db e)
  | .ok none => .error .notFoundThrow
  | .ok (some p) => .ok ⟨200, .jsonProduct p⟩

/-- Embeds `app.get('/products/:id')`: the try block with its catch, which logs
and answers `res.send('Product not found.')`. -/
def productShowHandler (db : DB) (rid : RawId) : Except DbError HttpResponse × DB :=
  match productShowTry db rid with
  | .ok r => (.ok r, db)
  | .error _ => (.ok ⟨200, .text "Product not found."⟩, db)

/-- The `try` block of `app.get('/brands/:id')`. -/
def brandShowTry (db : DB) (rid : RawId) : Except HandlerError HttpResponse :=
  match Brand_findById db rid with
  | .error e => .error (.db e)
  | .ok none => .error .notFoundThrow
  | .ok (some b) => .ok ⟨200, .jsonBrand b⟩

/-- Embeds `app.get('/brands/:id')`: the try block with its catch, which logs
and answers `res.send('Brand not found.')`. -/
def brandShowHandler (db : DB) (rid : RawId) : Except DbError HttpResponse × DB :=
  match brandShowTry db rid with
  | .ok r => (.ok r, db)
  | .error _ => (.ok ⟨200, .text "Brand not found."⟩, db)

/-- The five routes `server.js` registers. -/
inductive Request where
  | root
  | productsIndex
  | productShow (rid : RawId)
  | brandsIndex
  | brandShow (rid : RawId)
  deriving DecidableEq, Repr

/-- Dispatch of one request to its handler. -/
def handle (db : DB) : Request → Except DbError HttpResponse × DB
  | .root => rootHandler db
  | .productsIndex => productsIndexHandler db
  | .productShow rid => productShowHandler db rid
  | .brandsIndex => brandsIndexHandler db
  | .brandShow rid => brandShowHandler db rid

/-! ### Connection manager (`db/index.js`) -/

/-- The connection string hardcoded in `db/index.js`. -/
def connectionString : String := "mongodb://127.0.0.1:27017/productsDatabase"

/-- The target `mongoose.connect` is called with, as a function of the
process environment; the module reads no environment variable. -/
def connectTarget (_env : String → Option String) : String :=
  connectionString

/-- Outcome of the startup connection attempt. -/
structure ConnOutcome where
  connected : Bool
  logs : List String
  retried : Bool
  crashed : Bool
  deriving DecidableEq, Repr

/-- The startup connection attempt of `db/index.js`, as a function of
whether the database server is reachable: log the outcome either way,
never retry, never crash the process. -/
def mongooseConnect (serverUp : Bool) : ConnOutcome :=
  if serverUp then
    ⟨true, ["Successfully connected to MongoDB"], false, false⟩
  else
    ⟨false, ["Connection error"], false, false⟩

/-! ### Seed script (`seed/brandsProducts.js`) -/

/-- Observable steps the seed script takes, in order. -/
inductive SeedEvent where
  | savedBrand (name : String)
  | insertedProducts (count : Nat)
  | logged (msg : String)
  | closedConnection
  deriving DecidableEq, Repr

/-- The `main` function of the seed script: save five fixed brands one
after the other, keeping each document (and so its generated `_id`), build
the seven fixed products referencing those ids, insert them in a single
`insertMany` batch, and log completion. -/
def seed_main (db0 : DB) : Except DbError (DB × List SeedEvent) := do
  let (brand1, db1) ← Brand_save db0 "Apple" "https://www.apple.com"
  let (brand2, db2) ← Brand_save db1 "Vespa" "https://www.vespa.com"
  let (brand3, db3) ← Brand_save db2 "New Balance" "https://www.newbalance.com"
  let (brand4, db4) ← Brand_save db3 "Tribe" "https://www.tribebicycles.com"
  let (brand5, db5) ← Brand_save db4 "Stumptown" "https://www.stumptowncoffee.com"
  let products : List ProductInput := [
    ⟨"Apple AirPods", "https://www.apple.com/airpods", "250", some brand1.id⟩,
    ⟨"Apple iPhone Pro", "https://www.apple.com/iphone-11-pro", "1000", some brand1.id⟩,
    ⟨"Apple Watch", "https://www.apple.com/watch", "499", some brand1.id⟩,
    ⟨"Vespa Primavera", "https://www.vespa.com/us_EN/vespa-models/primavera.html",
      "3000", some brand2.id⟩,
    ⟨"New Balance 574 Core", "https://www.newbalance.com/pd/574-core/ML574-EG.html",
      "84", some brand3.id⟩,
    ⟨"Tribe Messenger Bike 004",
      "https://tribebicycles.com/collections/messenger-series/products/mess-004-tx",
      "675", some brand4.id⟩,
    ⟨"Stumptown Hair Bender Coffee",
      "https://www.stumptowncoffee.com/products/hair-bender", "17", some brand5.id⟩]
  let (docs, db6) ← Product_insertMany db5 products
  pure (db6,
    [.savedBrand "Apple", .savedBrand "Vespa", .savedBrand "New Balance",
     .savedBrand "Tribe", .savedBrand "Stumptown",
     .insertedProducts docs.length, .logged "Created products!"])

/-- The `run` function of the seed script: run `main`, then `db.close()`. -/
def seed_run (db : DB) : Except DbError (DB × List SeedEvent) := do
  let (db1, evs) ← seed_main db
  pure ({ db1 with connected := false }, evs ++ [.closedConnection])

/-- A fresh, connected, empty database. -/
def emptyDB : DB := ⟨[], [], 0, true⟩

/-- The database contents after one seed run against an empty database,
with the connection reopened (the HTTP server opens its own handle). -/
def seededDB : DB :=
  match seed_run emptyDB with
  | .ok (db, _) => { db with connected := true }
  | .error _ => emptyDB

/-! ### Derived predicates used by the theorems -/

/-- Every id already stored is below the generator counter. -/
def DB.wf (db : DB) : Prop :=
  (∀ p ∈ db.products, p.id < db.nextId) ∧ (∀ b ∈ db.brands, b.id < db.nextId)

/-- All stored documents satisfy the schema-layer field invariants. -/
def goodDB (db : DB) : Prop :=
  (∀ p ∈ db.products, p.title ≠ "" ∧ p.description ≠ "" ∧ p.price ≠ "") ∧
  (∀ b ∈ db.brands, b.name ≠ "" ∧ b.url ≠ "")

/-- The raw path id is malformed, or casts to an id carried by no stored
product: exactly the situations the claim calls "not found". -/
def idMatchesNoProduct (db : DB) (rid : RawId) : Bool :=
  match castId rid with
  | none => true
  | some n => (db.products.find? fun p => p.id == n).isNone

/-- The raw path id is malformed, or casts to an id carried by no stored
brand. -/
def idMatchesNoBrand (db : DB) (rid : RawId) : Bool :=
  match castId rid with
  | none => true
  | some n => (db.brands.find? fun b => b.id == n).isNone

/-- The first product document the seed script creates (the brands take
ids 0–4, so the first product gets id 5 and references brand 0). -/
def firstSeededProduct : ProductDoc :=
  ⟨5, "Apple AirPods", "https://www.apple.com/airpods", "250", some 0⟩

/-! ## Helper lemmas -/

/-- Every document built by `mkProductDocs` takes its fields from some
input of the batch. -/
theorem mem_mkProductDocs {n : Nat} {ps : List ProductInput} {d : ProductDoc}
    (hd : d ∈ mkProductDocs n ps) :
    ∃ p ∈ ps, d.title = p.title ∧ d.description = p.description ∧
      d.price = p.price ∧ d.brand = p.brand := by
  induction ps generalizing n with
  | nil => simp [mkProductDocs] at hd
  | cons p ps ih =>
    simp only [mkProductDocs, List.mem_cons] at hd
    rcases hd with rfl | hd
    · exact ⟨p, by simp, rfl, rfl, rfl, rfl⟩
    · obtain ⟨q, hq, h1, h2, h3, h4⟩ := ih hd
      exact ⟨q, by simp [hq], h1, h2, h3, h4⟩

/-! ## Claims -/

/-- C1: `GET /products/:id` with an id matching no stored product
(including a malformed identifier) answers exactly the plain text
`"Product not found."`, and `GET /brands/:id` with an id matching no
stored brand answers exactly `"Brand not found."`; both responses carry
the default 200 status and leave the database unchanged. -/
theorem C1_by_id_not_found_plaintext (db : DB) (ridP ridB : RawId)
    (hp : idMatchesNoProduct db ridP = true)
    (hb : idMatchesNoBrand db ridB = true) :
    productShowHandler db ridP = (.ok ⟨200, .text "Product not found."⟩, db) ∧
    brandShowHandler db ridB = (.ok ⟨200, .text "Brand not found."⟩, db) := by
  constructor
  · unfold productShowHandler productShowTry Product_findById
    unfold idMatchesNoProduct at hp
    cases hc : db.connected
    · simp [hc]
    · cases hr : castId ridP
      · simp [hc, hr]
      · rw [hr] at hp
        simp only [Option.isNone_iff_eq_none] at hp
        simp [hc, hr, hp]
  · unfold brandShowHandler brandShowTry Brand_findById
    unfold idMatchesNoBrand at hb
    cases hc : db.connected
    · simp [hc]
    · cases hr : castId ridB
      · simp [hc, hr]
      · rw [hr] at hb
        simp only [Option.isNone_iff_eq_none] at hb
        simp [hc, hr, hb]

/-- Witness for C1 at the seeded database: id 999 names no product, and a
malformed id names no brand. -/
theorem C1_by_id_not_found_plaintext_witness :
    productShowHandler seededDB (.valid 999) =
      (.ok ⟨200, .text "Product not found."⟩, seededDB) ∧
    brandShowHandler seededDB (.malformed "not-an-object-id") =
      (.ok ⟨200, .text "Brand not found."⟩, seededDB) :=
  C1_by_id_not_found_plaintext seededDB (.valid 999) (.malformed "not-an-object-id")
    (by decide) (by decide)

/-- C3: for every database state with a usable connection, `GET /products`
answers the full stored product list as a JSON array, whose length is the
number of stored products — no filtering, pagination, or truncation. -/
theorem C3_products_index_returns_all (db : DB) (h : db.connected = true) :
    ∃ l : List ProductDoc,
      productsIndexHandler db = (.ok ⟨200, .jsonProductList l⟩, db) ∧
      l = db.products ∧ l.length = db.products.length :=
  ⟨db.products, by simp [productsIndexHandler, Product_find, h], rfl, rfl⟩

/-- Witness for C3 at the seeded database. -/
theorem C3_products_index_returns_all_witness :
    ∃ l : List ProductDoc,
      productsIndexHandler seededDB = (.ok ⟨200, .jsonProductList l⟩, seededDB) ∧
      l = seededDB.products ∧ l.length = seededDB.products.length :=
  C3_products_index_returns_all seededDB rfl

/-- C8: every exposed route leaves the stored collections (the whole
database state) unchanged, on both its success and its error path. -/
theorem C8_routes_leave_db_unchanged (db : DB) (r : Request) :
    (handle db r).2 = db := by
  cases r with
  | root => rfl
  | productsIndex =>
    simp only [handle, productsIndexHandler]
    cases Product_find db <;> rfl
  | productShow rid =>
    simp only [handle, productShowHandler]
    cases productShowTry db rid <;> rfl
  | brandsIndex =>
    simp only [handle, brandsIndexHandler]
    cases Brand_find db <;> rfl
  | brandShow rid =>
    simp only [handle, brandShowHandler]
    cases brandShowTry db rid <;> rfl

/-- C9: the connection manager targets a hardcoded local address and
database name whatever the environment holds; on success it logs the
confirmation line, on failure it logs the error line, in neither case
retrying or crashing; and any query on an unconnected handle fails at
call time with the unavailable error. -/
theorem C9_connection_manager (env : String → Option String) (db : DB)
    (hdb : db.connected = false) :
    connectTarget env = "mongodb://127.0.0.1:27017/productsDatabase" ∧
    (mongooseConnect true).connected = true ∧
    (mongooseConnect true).logs = ["Successfully connected to MongoDB"] ∧
    (mongooseConnect true).retried = false ∧
    (mongooseConnect true).crashed = false ∧
    (mongooseConnect false).connected = false ∧
    (mongooseConnect false).logs = ["Connection error"] ∧
    (mongooseConnect false).retried = false ∧
    (mongooseConnect false).crashed = false ∧
    Product_find db = .error .unavailable ∧
    Brand_find db = .error .unavailable := by
  refine ⟨rfl, rfl, rfl, rfl, rfl, rfl, rfl, rfl, rfl, ?_, ?_⟩ <;>
    simp [Product_find, Brand_find, hdb]

/-- Witness for C9 with an empty environment and a disconnected handle. -/
theorem C9_connection_manager_witness :
    connectTarget (fun _ => none) = "mongodb://127.0.0.1:27017/productsDatabase" ∧
    (mongooseConnect true).connected = true ∧
    (mongooseConnect true).logs = ["Successfully connected to MongoDB"] ∧
    (mongooseConnect true).retried = false ∧
    (mongooseConnect true).crashed = false ∧
    (mongooseConnect false).connected = false ∧
    (mongooseConnect false).logs = ["Connection error"] ∧
    (mongooseConnect false).retried = false ∧
    (mongooseConnect false).crashed = false ∧
    Product_find ⟨[], [], 0, false⟩ = .error .unavailable ∧
    Brand_find ⟨[], [], 0, false⟩ = .error .unavailable :=
  C9_connection_manager (fun _ => none) ⟨[], [], 0, false⟩ rfl

/-- C10: when the connection is unusable, the list routes propagate the
driver error out of the handler uncaught — no plain-text message — while
the by-id routes catch it and still answer their fixed not-found text. -/
theorem C10_list_routes_no_recovery (db : DB) (rid : RawId)
    (h : db.connected = false) :
    (productsIndexHandler db).1 = .error .unavailable ∧
    (brandsIndexHandler db).1 = .error .unavailable ∧
    (productShowHandler db rid).1 = .ok ⟨200, .text "Product not found."⟩ ∧
    (brandShowHandler db rid).1 = .ok ⟨200, .text "Brand not found."⟩ := by
  refine ⟨?_, ?_, ?_, ?_⟩ <;>
    simp [productsIndexHandler, brandsIndexHandler, productShowHandler,
          brandShowHandler, productShowTry, brandShowTry,
          Product_find, Brand_find, Product_findById, Brand_findById, h]

/-- Witness for C10 on a disconnected database. -/
theorem C10_list_routes_no_recovery_witness :
    (productsIndexHandler ⟨[], [], 0, false⟩).1 = .error .unavailable ∧
    (brandsIndexHandler ⟨[], [], 0, false⟩).1 = .error .unavailable ∧
    (productShowHandler ⟨[], [], 0, false⟩ (.valid 0)).1 =
      .ok ⟨200, .text "Product not found."⟩ ∧
    (brandShowHandler ⟨[], [], 0, false⟩ (.valid 0)).1 =
      .ok ⟨200, .text "Brand not found."⟩ :=
  C10_list_routes_no_recovery ⟨[], [], 0, false⟩ (.valid 0) rfl

/-- C4: schema-layer validation — a brand write succeeds only with
non-empty `name` and `url`, a product batch only when every input has
non-empty `title`, `description`, `price`; writes violating this are
rejected with a validation error; and consequently every database
reachable through these writes from a good one keeps all five fields
non-empty on every stored record. -/
theorem C4_schema_validation (db : DB) (hg : goodDB db) :
    (∀ name url doc db', Brand_save db name url = .ok (doc, db') →
        name ≠ "" ∧ url ≠ "" ∧ goodDB db') ∧
    (∀ name url, brandValid name url = false →
        Brand_save db name url = .error .validationFailed) ∧
    (∀ ps docs db', Product_insertMany db ps = .ok (docs, db') →
        (∀ p ∈ ps, p.title ≠ "" ∧ p.description ≠ "" ∧ p.price ≠ "") ∧ goodDB db') ∧
    (∀ ps, ps.all productValid = false →
        Product_insertMany db ps = .error .validationFailed) := by
  obtain ⟨hgp, hgb⟩ := hg
  refine ⟨?_, ?_, ?_, ?_⟩
  · intro name url doc db' h
    by_cases hv : brandValid name url = true
    · by_cases hc : db.connected = true
      · simp only [Brand_save, hv, Bool.not_true, Bool.false_eq_true, if_false,
          hc, if_true, Except.ok.injEq, Prod.mk.injEq] at h
        obtain ⟨h1, h2⟩ := h
        subst h2
        have hv' : ¬name = "" ∧ ¬url = "" := by
          simpa [brandValid] using hv
        refine ⟨hv'.1, hv'.2, hgp, ?_⟩
        intro b hb
        rw [List.mem_append] at hb
        rcases hb with hb | hb
        · exact hgb b hb
        · simp only [List.mem_singleton] at hb
          subst hb
          exact ⟨hv'.1, hv'.2⟩
      · rw [Bool.not_eq_true] at hc
        simp [Brand_save, hv, hc] at h
    · rw [Bool.not_eq_true] at hv
      simp [Brand_save, hv] at h
  · intro name url hv
    simp [Brand_save, hv]
  · intro ps docs db' h
    by_cases hv : ps.all productValid = true
    · by_cases hc : db.connected = true
      · simp only [Product_insertMany, hv, Bool.not_true, Bool.false_eq_true,
          if_false, hc, if_true, Except.ok.injEq, Prod.mk.injEq] at h
        obtain ⟨h1, h2⟩ := h
        subst h2
        have hpv : ∀ p ∈ ps, ¬p.title = "" ∧ ¬p.description = "" ∧ ¬p.price = "" := by
          intro p hp
          have := List.all_eq_true.mp hv p hp
          simpa [productValid, and_assoc] using this
        refine ⟨hpv, ?_, hgb⟩
        intro p hp
        rw [List.mem_append] at hp
        rcases hp with hp | hp
        · exact hgp p hp
        · obtain ⟨q, hq, ht, hd, hpr, _⟩ := mem_mkProductDocs hp
          obtain ⟨h1, h2, h3⟩ := hpv q hq
          exact ⟨by rw [ht]; exact h1, by rw [hd]; exact h2, by rw [hpr]; exact h3⟩
      · rw [Bool.not_eq_true] at hc
        simp [Product_insertMany, hv, hc] at h
    · rw [Bool.not_eq_true] at hv
      simp [Product_insertMany, hv] at h
  · intro ps hv
    simp [Product_insertMany, hv]

/-- Witness for C4: a concrete rejected brand and product write against
the empty database, and a concrete accepted brand write. -/
theorem C4_schema_validation_witness :
    Brand_save emptyDB "" "https://www.example.com" = .error .validationFailed ∧
    Product_insertMany emptyDB [⟨"", "some text", "10", none⟩] =
      .error .validationFailed ∧
    ("Apple" ≠ "" ∧ "https://www.apple.com" ≠ "" ∧
      goodDB ⟨[⟨0, "Apple", "https://www.apple.com"⟩], [], 1, true⟩) :=
  ⟨(C4_schema_validation emptyDB (by simp [goodDB, emptyDB])).2.1 ""
     "https://www.example.com" (by decide),
   (C4_schema_validation emptyDB (by simp [goodDB, emptyDB])).2.2.2
     [⟨"", "some text", "10", none⟩] (by decide),
   (C4_schema_validation emptyDB (by simp [goodDB, emptyDB])).1 "Apple" "https://www.apple.com"
     ⟨0, "Apple", "https://www.apple.com"⟩
     ⟨[⟨0, "Apple", "https://www.apple.com"⟩], [], 1, true⟩ rfl⟩

/-- C5: a product whose `title`, `description` and `price` are non-empty
is inserted successfully whatever its `brand` field holds — absent or any
(possibly dangling) identifier — and the stored document carries that
`brand` value unchanged; the brands collection plays no part in the
outcome. -/
theorem C5_product_brand_unchecked (db : DB) (inp : ProductInput)
    (hc : db.connected = true) (ht : inp.title ≠ "")
    (hd : inp.description ≠ "") (hpr : inp.price ≠ "") :
    ∃ doc db', Product_insertMany db [inp] = .ok ([doc], db') ∧
      doc.brand = inp.brand ∧ db'.products = db.products ++ [doc] ∧
      ∀ bs : List BrandDoc,
        Product_insertMany { db with brands := bs } [inp] =
          .ok ([doc], { db' with brands := bs }) := by
  have hv : productValid inp = true := by simp [productValid, ht, hd, hpr]
  refine ⟨⟨db.nextId, inp.title, inp.description, inp.price, inp.brand⟩,
    { db with
        products := db.products ++
          [⟨db.nextId, inp.title, inp.description, inp.price, inp.brand⟩],
        nextId := db.nextId + 1 }, ?_, rfl, rfl, ?_⟩
  · simp [Product_insertMany, hv, hc, mkProductDocs]
  · intro bs
    simp [Product_insertMany, hv, hc, mkProductDocs]

/-- Witness for C5: a product with a dangling brand reference (no brand
with id 42 exists in the seeded database) is accepted and stored as is. -/
theorem C5_product_brand_unchecked_witness :
    ∃ doc db', Product_insertMany seededDB
        [⟨"Mystery Item", "a product", "5", some 42⟩] = .ok ([doc], db') ∧
      doc.brand = (⟨"Mystery Item", "a product", "5", some 42⟩ : ProductInput).brand ∧
      db'.products = seededDB.products ++ [doc] ∧
      ∀ bs : List BrandDoc,
        Product_insertMany { seededDB with brands := bs }
            [⟨"Mystery Item", "a product", "5", some 42⟩] =
          .ok ([doc], { db' with brands := bs }) :=
  C5_product_brand_unchecked seededDB ⟨"Mystery Item", "a product", "5", some 42⟩
    rfl (by decide) (by decide) (by decide)

/-- C6: round-trip — a product inserted with `brand` set to an identifier
`b`, when fetched by its own generated identifier through the
`GET /products/:id` handler, comes back as a JSON object whose `brand`
field equals `b`. -/
theorem C6_roundtrip (db : DB) (inp : ProductInput) (b : Nat)
    (hwf : db.wf) (hc : db.connected = true)
    (hv : productValid inp = true) (hb : inp.brand = some b) :
    ∃ doc db', Product_insertMany db [inp] = .ok ([doc], db') ∧
      doc.brand = some b ∧
      productShowHandler db' (.valid doc.id) =
        (.ok ⟨200, .jsonProduct doc⟩, db') := by
  refine ⟨⟨db.nextId, inp.title, inp.description, inp.price, inp.brand⟩,
    { db with
        products := db.products ++
          [⟨db.nextId, inp.title, inp.description, inp.price, inp.brand⟩],
        nextId := db.nextId + 1 }, ?_, by simp [hb], ?_⟩
  · simp [Product_insertMany, hv, hc, mkProductDocs]
  · have h1 : List.find? (fun p : ProductDoc => p.id == db.nextId) db.products = none := by
      rw [List.find?_eq_none]
      intro p hp
      have := hwf.1 p hp
      simp only [beq_iff_eq]
      omega
    unfold productShowHandler productShowTry Product_findById
    simp [hc, castId, h1]

/-- Witness for C6: a product referencing brand 2 of the seeded database
round-trips through the by-id route with `brand = some 2`. -/
theorem C6_roundtrip_witness :
    ∃ doc db', Product_insertMany seededDB
        [⟨"Desk Lamp", "a lamp", "30", some 2⟩] = .ok ([doc], db') ∧
      doc.brand = some 2 ∧
      productShowHandler db' (.valid doc.id) =
        (.ok ⟨200, .jsonProduct doc⟩, db') :=
  C6_roundtrip seededDB ⟨"Desk Lamp", "a lamp", "30", some 2⟩ 2
    (by refine ⟨?_, ?_⟩ <;> decide) rfl (by decide) rfl

/-- C2: run once against a database with a usable connection, the seed
script saves the five fixed brands one after the other — their captured
generated ids are consecutive — then inserts the seven fixed products,
each referencing one captured brand id, in a single batch, then logs
completion and closes the connection; the event trace lists exactly these
steps in this order. -/
theorem C2_seed_script_steps (db : DB) (h : db.connected = true) :
    seed_run db = .ok
      ({ brands := db.brands ++
          [⟨db.nextId, "Apple", "https://www.apple.com"⟩,
           ⟨db.nextId + 1, "Vespa", "https://www.vespa.com"⟩,
           ⟨db.nextId + 2, "New Balance", "https://www.newbalance.com"⟩,
           ⟨db.nextId + 3, "Tribe", "https://www.tribebicycles.com"⟩,
           ⟨db.nextId + 4, "Stumptown", "https://www.stumptowncoffee.com"⟩],
         products := db.products ++
          [⟨db.nextId + 5, "Apple AirPods", "https://www.apple.com/airpods",
            "250", some db.nextId⟩,
           ⟨db.nextId + 6, "Apple iPhone Pro", "https://www.apple.com/iphone-11-pro",
            "1000", some db.nextId⟩,
           ⟨db.nextId + 7, "Apple Watch", "https://www.apple.com/watch",
            "499", some db.nextId⟩,
           ⟨db.nextId + 8, "Vespa Primavera",
            "https://www.vespa.com/us_EN/vespa-models/primavera.html",
            "3000", some (db.nextId + 1)⟩,
           ⟨db.nextId + 9, "New Balance 574 Core",
            "https://www.newbalance.com/pd/574-core/ML574-EG.html",
            "84", some (db.nextId + 2)⟩,
           ⟨db.nextId + 10, "Tribe Messenger Bike 004",
            "https://tribebicycles.com/collections/messenger-series/products/mess-004-tx",
            "675", some (db.nextId + 3)⟩,
           ⟨db.nextId + 11, "Stumptown Hair Bender Coffee",
            "https://www.stumptowncoffee.com/products/hair-bender",
            "17", some (db.nextId + 4)⟩],
         nextId := db.nextId + 12,
         connected := false },
       [.savedBrand "Apple", .savedBrand "Vespa", .savedBrand "New Balance",
        .savedBrand "Tribe", .savedBrand "Stumptown",
        .insertedProducts 7, .logged "Created products!", .closedConnection]) := by
  obtain ⟨bs, ps, n, c⟩ := db
  simp only at h
  subst h
  simp [seed_run, seed_main, Brand_save, Product_insertMany, brandValid,
        productValid, mkProductDocs, Bind.bind, Except.bind, Functor.map,
        Except.map, pure, Except.pure]

/-- Witness for C2: the seed run against the fresh empty database. -/
theorem C2_seed_script_steps_witness :
    seed_run emptyDB = .ok
      ({ brands :=
          [⟨0, "Apple", "https://www.apple.com"⟩,
           ⟨1, "Vespa", "https://www.vespa.com"⟩,
           ⟨2, "New Balance", "https://www.newbalance.com"⟩,
           ⟨3, "Tribe", "https://www.tribebicycles.com"⟩,
           ⟨4, "Stumptown", "https://www.stumptowncoffee.com"⟩],
         products :=
          [⟨5, "Apple AirPods", "https://www.apple.com/airpods", "250", some 0⟩,
           ⟨6, "Apple iPhone Pro", "https://www.apple.com/iphone-11-pro", "1000", some 0⟩,
           ⟨7, "Apple Watch", "https://www.apple.com/watch", "499", some 0⟩,
           ⟨8, "Vespa Primavera",
            "https://www.vespa.com/us_EN/vespa-models/primavera.html", "3000", some 1⟩,
           ⟨9, "New Balance 574 Core",
            "https://www.newbalance.com/pd/574-core/ML574-EG.html", "84", some 2⟩,
           ⟨10, "Tribe Messenger Bike 004",
            "https://tribebicycles.com/collections/messenger-series/products/mess-004-tx",
            "675", some 3⟩,
           ⟨11, "Stumptown Hair Bender Coffee",
            "https://www.stumptowncoffee.com/products/hair-bender", "17", some 4⟩],
         nextId := 12,
         connected := false },
       [.savedBrand "Apple", .savedBrand "Vespa", .savedBrand "New Balance",
        .savedBrand "Tribe", .savedBrand "Stumptown",
        .insertedProducts 7, .logged "Created products!", .closedConnection]) :=
  C2_seed_script_steps emptyDB rfl

/-- C7: end to end — starting from the empty database, one seed run
yields a state where `GET /products` answers exactly 7 entries,
`GET /brands` answers exactly 5 entries, and fetching the first seeded
product's id answers a JSON object with title `"Apple AirPods"` and
price `"250"`. -/
theorem C7_end_to_end :
    seededDB.products.length = 7 ∧
    seededDB.brands.length = 5 ∧
    (productsIndexHandler seededDB).1 =
      .ok ⟨200, .jsonProductList seededDB.products⟩ ∧
    (brandsIndexHandler seededDB).1 =
      .ok ⟨200, .jsonBrandList seededDB.brands⟩ ∧
    seededDB.products.head? = some firstSeededProduct ∧
    (productShowHandler seededDB (.valid firstSeededProduct.id)).1 =
      .ok ⟨200, .jsonProduct firstSeededProduct⟩ ∧
    firstSeededProduct.title = "Apple AirPods" ∧
    firstSeededProduct.price = "250" :=
  ⟨rfl, rfl, rfl, rfl, rfl, rfl, rfl, rfl⟩

end MongooseExpress
